import Mathlib

/-!
Verification development for the repository's two specified cores:
the `MetadataStorage` Solidity contract (a CRUD metadata store with
owner-gated writes) and the dashboard's polling / rendering client
(`script.js`).  All definitions are shallow embeddings of the source.
-/

namespace MetadataStorage

/-- Ethereum addresses, abstracted as naturals. -/
abbrev Address := Nat

/-- The `Metadata` struct of the contract.  The Solidity
`mapping(string => string) customFields` is embedded as a total function
with the mapping's zero-value default (the empty string). -/
structure Metadata where
  title : String
  description : String
  owner : Address
  timestamp : Nat
  tags : List String
  fileHash : String
  customFields : String → String

/-- The zero-value a Solidity mapping slot holds before any write. -/
def zeroMetadata : Metadata :=
  { title := "", description := "", owner := 0, timestamp := 0,
    tags := [], fileHash := "", customFields := fun _ => "" }

/-- Contract storage: `mapping(uint256 => Metadata) metadataStore` and
`uint256 metadataCount`. -/
structure ContractState where
  metadataStore : Nat → Metadata
  metadataCount : Nat

/-- State of a freshly deployed contract. -/
def initialState : ContractState :=
  { metadataStore := fun _ => zeroMetadata, metadataCount := 0 }

/-- The two revert reasons of the contract:
"Metadata does not exist" and "Not the owner". -/
inductive ContractError where
  | NotFound
  | Unauthorized
deriving DecidableEq, Repr

/-- `createMetadata`: assigns id `metadataCount`, post-increments the
count, writes all fields of the new record (leaving the slot's
`customFields` mapping as it was, exactly as the Solidity code does),
and returns the new id. -/
def createMetadata (s : ContractState) (sender : Address) (now : Nat)
    (title description : String) (tags : List String) (fileHash : String) :
    ContractState × Nat :=
  let metadataId := s.metadataCount
  let newMetadata :=
    { s.metadataStore metadataId with
      title := title, description := description, owner := sender,
      timestamp := now, tags := tags, fileHash := fileHash }
  ({ metadataStore := fun j => if j = metadataId then newMetadata else s.metadataStore j,
     metadataCount := metadataId + 1 }, metadataId)

/-- `updateFileHash`: requires the id to exist, then requires the caller
to be the stored owner, then overwrites the `fileHash` field. -/
def updateFileHash (s : ContractState) (sender : Address) (id : Nat)
    (newFileHash : String) : Except ContractError ContractState :=
  if id < s.metadataCount then
    if sender = (s.metadataStore id).owner then
      .ok { s with metadataStore := fun j =>
              if j = id then { s.metadataStore id with fileHash := newFileHash }
              else s.metadataStore j }
    else .error .Unauthorized
  else .error .NotFound

/-- `addCustomField`: same existence/ownership checks as
`updateFileHash`, then upserts `(key, value)` into the record's
custom-field mapping. -/
def addCustomField (s : ContractState) (sender : Address) (id : Nat)
    (key value : String) : Except ContractError ContractState :=
  if id < s.metadataCount then
    if sender = (s.metadataStore id).owner then
      .ok { s with metadataStore := fun j =>
              if j = id then
                { s.metadataStore id with customFields := fun k =>
                    if k = key then value else (s.metadataStore id).customFields k }
              else s.metadataStore j }
    else .error .Unauthorized
  else .error .NotFound

/-- `getMetadata`: requires the id to exist; returns the record's six
scalar/sequence fields as a tuple. -/
def getMetadata (s : ContractState) (id : Nat) :
    Except ContractError (String × String × Address × Nat × List String × String) :=
  if id < s.metadataCount then
    let m := s.metadataStore id
    .ok (m.title, m.description, m.owner, m.timestamp, m.tags, m.fileHash)
  else .error .NotFound

/-- `getCustomField`: requires the id to exist; returns the mapping
value at `key` (the empty string if the key was never written). -/
def getCustomField (s : ContractState) (id : Nat) (key : String) :
    Except ContractError String :=
  if id < s.metadataCount then .ok ((s.metadataStore id).customFields key)
  else .error .NotFound

/-- `getMetadataCount`. -/
def getMetadataCount (s : ContractState) : Nat :=
  s.metadataCount

/-- Arguments of one `createMetadata` transaction (caller and block
timestamp included). -/
structure CreateArgs where
  sender : Address
  now : Nat
  title : String
  description : String
  tags : List String
  fileHash : String

/-- A mutating transaction sent to the contract. -/
inductive Op where
  | create (a : CreateArgs)
  | update (sender : Address) (id : Nat) (newFileHash : String)
  | addField (sender : Address) (id : Nat) (key value : String)

/-- EVM transaction semantics: a reverted call leaves storage unchanged. -/
def applyOp (s : ContractState) : Op → ContractState
  | .create a => (createMetadata s a.sender a.now a.title a.description a.tags a.fileHash).1
  | .update sender id newFileHash =>
      match updateFileHash s sender id newFileHash with
      | .ok s' => s'
      | .error _ => s
  | .addField sender id key value =>
      match addCustomField s sender id key value with
      | .ok s' => s'
      | .error _ => s

/-- Run a sequence of `createMetadata` calls, collecting the returned ids. -/
def runCreates (s : ContractState) : List CreateArgs → ContractState × List Nat
  | [] => (s, [])
  | a :: rest =>
      let p := createMetadata s a.sender a.now a.title a.description a.tags a.fileHash
      let q := runCreates p.1 rest
      (q.1, p.2 :: q.2)

theorem createMetadata_count (s : ContractState) (sender : Address) (now : Nat)
    (title description : String) (tags : List String) (fileHash : String) :
    (createMetadata s sender now title description tags fileHash).1.metadataCount
      = s.metadataCount + 1 := rfl

theorem runCreates_ids (s : ContractState) (args : List CreateArgs) :
    (runCreates s args).2 = List.range' s.metadataCount args.length := by
  induction args generalizing s with
  | nil => simp [runCreates]
  | cons a rest ih =>
      simp [runCreates, List.range', ih, createMetadata]

theorem runCreates_count (s : ContractState) (args : List CreateArgs) :
    (runCreates s args).1.metadataCount = s.metadataCount + args.length := by
  induction args generalizing s with
  | nil => simp [runCreates]
  | cons a rest ih =>
      simp [runCreates, ih, createMetadata]
      omega

theorem applyOp_count_mono (s : ContractState) (op : Op) :
    s.metadataCount ≤ (applyOp s op).metadataCount := by
  cases op with
  | create a => simp [applyOp, createMetadata]
  | update sender id newFileHash =>
      simp only [applyOp, updateFileHash]
      by_cases h1 : id < s.metadataCount <;> by_cases h2 : sender = (s.metadataStore id).owner <;>
        simp [h1, h2]
  | addField sender id key value =>
      simp only [applyOp, addCustomField]
      by_cases h1 : id < s.metadataCount <;> by_cases h2 : sender = (s.metadataStore id).owner <;>
        simp [h1, h2]

/-- C2: from the initial contract state, `getMetadataCount()` after any
sequence of `createMetadata` calls equals the number of (all successful)
creates, the returned ids are pairwise strictly increasing (hence
unique), and under any operation the count never decreases. -/
theorem claim_C2_count_and_ids :
    (∀ args : List CreateArgs,
        getMetadataCount (runCreates initialState args).1 = args.length
      ∧ List.Pairwise (· < ·) (runCreates initialState args).2)
    ∧ ∀ (s : ContractState) (op : Op),
        getMetadataCount s ≤ getMetadataCount (applyOp s op) := by
  refine ⟨fun args => ⟨?_, ?_⟩, fun s op => applyOp_count_mono s op⟩
  · simp [getMetadataCount, runCreates_count, initialState]
  · rw [runCreates_ids]
    exact List.pairwise_lt_range' _ _

/-- C3: for an existing record id and any caller other than the stored
owner, `updateFileHash` and `addCustomField` fail with `Unauthorized`
and the store state after the transaction is exactly the prior state. -/
theorem claim_C3_unauthorized_writes (s : ContractState) (sender : Address)
    (id : Nat) (newFileHash key value : String)
    (hid : id < s.metadataCount)
    (hown : sender ≠ (s.metadataStore id).owner) :
    updateFileHash s sender id newFileHash = .error .Unauthorized
    ∧ addCustomField s sender id key value = .error .Unauthorized
    ∧ applyOp s (.update sender id newFileHash) = s
    ∧ applyOp s (.addField sender id key value) = s := by
  refine ⟨?_, ?_, ?_, ?_⟩ <;>
    simp [updateFileHash, addCustomField, applyOp, hid, hown]

theorem claim_C3_unauthorized_writes_witness :
    (1 : Nat) < ((createMetadata initialState 7 100 "t" "d" ["a"] "h").1).metadataCount + 1
    ∧ updateFileHash (createMetadata initialState 7 100 "t" "d" ["a"] "h").1 9 0 "h2"
        = .error .Unauthorized := by
  have h := claim_C3_unauthorized_writes
    (createMetadata initialState 7 100 "t" "d" ["a"] "h").1 9 0 "h2" "k" "v"
    (by simp [createMetadata, initialState])
    (by simp [createMetadata, initialState])
  exact ⟨by simp [createMetadata, initialState], h.1⟩

/-- C4: for any id not less than the current count, all four
id-indexed operations fail with `NotFound`, and the two write
operations leave the store state unchanged. -/
theorem claim_C4_not_found (s : ContractState) (sender : Address)
    (id : Nat) (newFileHash key value : String)
    (hid : s.metadataCount ≤ id) :
    getMetadata s id = .error .NotFound
    ∧ getCustomField s id key = .error .NotFound
    ∧ updateFileHash s sender id newFileHash = .error .NotFound
    ∧ addCustomField s sender id key value = .error .NotFound
    ∧ applyOp s (.update sender id newFileHash) = s
    ∧ applyOp s (.addField sender id key value) = s := by
  have h : ¬ id < s.metadataCount := by omega
  refine ⟨?_, ?_, ?_, ?_, ?_, ?_⟩ <;>
    simp [getMetadata, getCustomField, updateFileHash, addCustomField, applyOp, h]

theorem claim_C4_not_found_witness :
    initialState.metadataCount ≤ 0
    ∧ getMetadata initialState 0 = .error .NotFound := by
  have h := claim_C4_not_found initialState 3 0 "h" "k" "v" (Nat.le_refl 0)
  exact ⟨Nat.le_refl 0, h.1⟩

/-- C9: `createMetadata` returns the pre-call count as the new id, and
reading that id back immediately with `getMetadata` succeeds and
returns exactly the stored fields (title, description, caller,
timestamp, tags, fileHash). -/
theorem claim_C9_create_read_round_trip (s : ContractState) (sender : Address)
    (now : Nat) (title description : String) (tags : List String)
    (fileHash : String) :
    (createMetadata s sender now title description tags fileHash).2 = s.metadataCount
    ∧ getMetadata (createMetadata s sender now title description tags fileHash).1
        (createMetadata s sender now title description tags fileHash).2
      = .ok (title, description, sender, now, tags, fileHash) := by
  refine ⟨rfl, ?_⟩
  simp [createMetadata, getMetadata]

/-- C10: a successful owner write changes only its target field.
`updateFileHash` replaces only the record's `fileHash`; `addCustomField`
replaces only the custom-field entry at `key`; everything else — the
record's other fields, its other custom fields, every other record, and
the count — is unchanged. -/
theorem claim_C10_write_frame (s : ContractState) (sender : Address)
    (id : Nat) (newFileHash key value : String)
    (hid : id < s.metadataCount)
    (hown : sender = (s.metadataStore id).owner) :
    (∀ s1, applyOp s (.update sender id newFileHash) = s1 →
      updateFileHash s sender id newFileHash = .ok s1
      ∧ s1.metadataCount = s.metadataCount
      ∧ (∀ j, j ≠ id → s1.metadataStore j = s.metadataStore j)
      ∧ (s1.metadataStore id).title = (s.metadataStore id).title
      ∧ (s1.metadataStore id).description = (s.metadataStore id).description
      ∧ (s1.metadataStore id).owner = (s.metadataStore id).owner
      ∧ (s1.metadataStore id).timestamp = (s.metadataStore id).timestamp
      ∧ (s1.metadataStore id).tags = (s.metadataStore id).tags
      ∧ (s1.metadataStore id).customFields = (s.metadataStore id).customFields
      ∧ (s1.metadataStore id).fileHash = newFileHash)
    ∧ (∀ s2, applyOp s (.addField sender id key value) = s2 →
      addCustomField s sender id key value = .ok s2
      ∧ s2.metadataCount = s.metadataCount
      ∧ (∀ j, j ≠ id → s2.metadataStore j = s.metadataStore j)
      ∧ (s2.metadataStore id).title = (s.metadataStore id).title
      ∧ (s2.metadataStore id).description = (s.metadataStore id).description
      ∧ (s2.metadataStore id).owner = (s.metadataStore id).owner
      ∧ (s2.metadataStore id).timestamp = (s.metadataStore id).timestamp
      ∧ (s2.metadataStore id).tags = (s.metadataStore id).tags
      ∧ (s2.metadataStore id).fileHash = (s.metadataStore id).fileHash
      ∧ (s2.metadataStore id).customFields key = value
      ∧ (∀ k, k ≠ key → (s2.metadataStore id).customFields k
            = (s.metadataStore id).customFields k)) := by
  constructor
  · rintro s1 rfl
    refine ⟨?_, ?_, ?_, ?_, ?_, ?_, ?_, ?_, ?_, ?_⟩ <;>
      simp_all [applyOp, updateFileHash]
  · rintro s2 rfl
    refine ⟨?_, ?_, ?_, ?_, ?_, ?_, ?_, ?_, ?_, ?_, ?_⟩ <;>
      simp_all [applyOp, addCustomField]

theorem claim_C10_write_frame_witness :
    ((0 : Nat) < ((createMetadata initialState 7 100 "t" "d" ["a"] "h").1).metadataCount
      ∧ (7 : Nat) = (((createMetadata initialState 7 100 "t" "d" ["a"] "h").1).metadataStore 0).owner)
    ∧ ((applyOp (createMetadata initialState 7 100 "t" "d" ["a"] "h").1
          (.update 7 0 "h2")).metadataStore 0).title = "t" := by
  have h := claim_C10_write_frame (createMetadata initialState 7 100 "t" "d" ["a"] "h").1
    7 0 "h2" "k" "v"
    (by simp [createMetadata, initialState])
    (by simp [createMetadata, initialState])
  exact ⟨⟨by simp [createMetadata, initialState],
          by simp [createMetadata, initialState]⟩,
        (h.1 _ rfl).2.2.2.1⟩

end MetadataStorage

namespace Dashboard

/-- One element of the `GET /api/ledger` response.  Timestamps are the
numeric time values the code compares via `new Date(...)`. -/
structure LedgerEntry where
  round_num : Nat
  timestamp : Nat
  clients : List String
  accuracy : Option Rat
  loss : Option Rat
deriving DecidableEq, Repr

/-- One element of the `GET /api/blockchain` response. -/
structure AuditBlock where
  round_num : Nat
  timestamp : Nat
  data_hash : String
  previous_hash : String
deriving DecidableEq, Repr

/-- The `GET /api/flower/status` payload as read by `updateFlowerStatus`.
`total_rounds` may be absent (`none`), matching the guard
`status.total_rounds > 0` being false on an absent field. -/
structure FlowerStatus where
  connected : Bool
  server_running : Bool
  training_in_progress : Bool
  flower_accessible : Bool
  clients_connected : Nat
  current_round : Nat
  total_rounds : Option Nat
deriving DecidableEq, Repr

/-- The sort at the head of `updateLedgerTable` / `updateBlockchainTable`:
`[...data].sort((a, b) => new Date(b.timestamp) - new Date(a.timestamp))`,
a stable sort whose comparator puts `a` before `b` iff
`b.timestamp ≤ a.timestamp`. -/
def sortByTsDesc {α : Type} (ts : α → Nat) (l : List α) : List α :=
  l.mergeSort (fun a b => decide (ts b ≤ ts a))

/-- Row order of the rendered ledger table (used when the data is
non-empty; an empty list renders a placeholder row instead). -/
def sortedLedgerRows (l : List LedgerEntry) : List LedgerEntry :=
  sortByTsDesc LedgerEntry.timestamp l

/-- Row order of the rendered audit-log table. -/
def sortedBlockRows (l : List AuditBlock) : List AuditBlock :=
  sortByTsDesc AuditBlock.timestamp l

/-- The connection-status text chosen by `updateFlowerStatus`. -/
def statusLabel (st : FlowerStatus) : String :=
  if st.connected then
    "Connected (" ++ toString st.clients_connected ++ " client"
      ++ (if st.clients_connected ≠ 1 then "s" else "") ++ ")"
  else if st.server_running then
    "Server running but not accessible"
  else if st.training_in_progress then
    "Starting up..."
  else
    "Disconnected"

/-- `Math.round((cr / tr) * 100)` for naturals `cr` and `0 < tr`,
computed exactly: `⌊100·cr/tr + 1/2⌋ = (200·cr + tr) / (2·tr)`. -/
def jsRound100 (cr tr : Nat) : Nat :=
  (200 * cr + tr) / (2 * tr)

/-- The progress-bar percentage computed by `updateFlowerStatus`:
`Math.min(100, Math.round((current_round / total_rounds) * 100))` when
`total_rounds > 0`, else `0`. -/
def trainingProgress (st : FlowerStatus) : Nat :=
  match st.total_rounds with
  | some tr => if 0 < tr then min 100 (jsRound100 st.current_round tr) else 0
  | none => 0

/-- The text written to the progress element (`NN%`). -/
def trainingProgressText (st : FlowerStatus) : String :=
  toString (trainingProgress st) ++ "%"

/-- The 64-zero-character previous-hash sentinel of the genesis block. -/
def genesisSentinel : String :=
  "0000000000000000000000000000000000000000000000000000000000000000"

/-- The visible text of the "previous hash" column cell in
`updateBlockchainTable`: `N/A` for a missing/empty hash, the literal
`Genesis` for the sentinel, else the first 16 characters plus an
ellipsis. -/
def prevHashCell (h : String) : String :=
  if h = "" then "N/A"
  else if h = genesisSentinel then "Genesis"
  else h.take 16 ++ "..."

/-- The outcome of the three fetches available to one poll cycle:
`none` models a failed network request. -/
structure PollEnv where
  ledgerFetch : Option (List LedgerEntry)
  blockchainFetch : Option (List AuditBlock)
  trainingStatusFetch : Option Bool
deriving DecidableEq, Repr

/-- Observable effects of one run of `fetchAndUpdateData`. -/
structure CycleResult where
  ledgerFetchAttempted : Bool
  blockchainFetchAttempted : Bool
  statusFetchAttempted : Bool
  ledgerTableUpdated : Bool
  blockchainTableUpdated : Bool
  errorBannerShown : Bool
deriving DecidableEq, Repr

/-- One poll cycle of `fetchAndUpdateData`.  The ledger fetch runs
first; a failure there throws to the outer catch, which shows the error
banner and re-renders only data already held (`ledgerData` and
`blockchainData` both still `[]`), so the blockchain fetch is never
issued.  A blockchain-fetch failure likewise throws after the ledger
succeeded, so only a non-empty ledger is re-rendered.  On the success
path both tables update, the non-critical status fetch runs (its own
failure is merely logged), and the banner ends hidden. -/
def fetchAndUpdateData (env : PollEnv) : CycleResult :=
  match env.ledgerFetch with
  | none =>
      { ledgerFetchAttempted := true, blockchainFetchAttempted := false,
        statusFetchAttempted := false,
        ledgerTableUpdated := false, blockchainTableUpdated := false,
        errorBannerShown := true }
  | some ledgerData =>
      match env.blockchainFetch with
      | none =>
          { ledgerFetchAttempted := true, blockchainFetchAttempted := true,
            statusFetchAttempted := false,
            ledgerTableUpdated := !ledgerData.isEmpty,
            blockchainTableUpdated := false,
            errorBannerShown := true }
      | some _ =>
          { ledgerFetchAttempted := true, blockchainFetchAttempted := true,
            statusFetchAttempted := true,
            ledgerTableUpdated := true, blockchainTableUpdated := true,
            errorBannerShown := false }

theorem pairwise_sortByTsDesc {α : Type} (ts : α → Nat) (l : List α) :
    List.Pairwise (fun a b => ts b ≤ ts a) (sortByTsDesc ts l) := by
  have h := @List.sorted_mergeSort α (fun a b => decide (ts b ≤ ts a))
    (fun a b c h1 h2 => by simp_all; omega)
    (fun a b => by simpa using Nat.le_total (ts b) (ts a))
    l
  exact h.imp (fun hab => by simpa using hab)

theorem perm_sortByTsDesc {α : Type} (ts : α → Nat) (l : List α) :
    (sortByTsDesc ts l).Perm l :=
  List.mergeSort_perm l _

theorem jsRound100_eq_round (cr tr : Nat) (h : 0 < tr) :
    (jsRound100 cr tr : ℤ) = round ((100 * cr : ℚ) / tr) := by
  have htr : (tr : ℚ) ≠ 0 := Nat.cast_ne_zero.mpr (Nat.pos_iff_ne_zero.mp h)
  rw [round_eq]
  have key : (100 * cr : ℚ) / tr + 1 / 2 = ((200 * cr + tr : ℕ) : ℚ) / ((2 * tr : ℕ) : ℚ) := by
    push_cast
    field_simp
    ring
  rw [jsRound100, key, Rat.floor_natCast_div_natCast]
  push_cast [Int.ofNat_tdiv]
  rfl

/-- A concrete audit block used as a counterexample input. -/
def exampleBlock : AuditBlock :=
  { round_num := 1, timestamp := 600, data_hash := "h1",
    previous_hash := genesisSentinel }

/-- A poll environment whose ledger fetch fails while its audit-log
fetch would succeed with one block. -/
def ledgerFailEnv : PollEnv :=
  { ledgerFetch := none, blockchainFetch := some [exampleBlock],
    trainingStatusFetch := some true }

/-- C1 (counterexample): with a failing ledger fetch and an audit-log
fetch that would succeed, the cycle does NOT attempt the audit-log
fetch and does NOT update the audit-log table — the ledger failure
throws to the outer catch before `fetch(/api/blockchain)` is reached. -/
theorem claim_C1_counterexample :
    ¬ ((fetchAndUpdateData ledgerFailEnv).blockchainFetchAttempted = true
      ∧ (fetchAndUpdateData ledgerFailEnv).blockchainTableUpdated = true) := by
  decide

/-- C1 (amended): in every poll cycle whose ledger fetch fails, the
audit-log fetch is skipped, the audit-log table is not updated, and the
user-visible error banner is shown for the ledger failure. -/
theorem claim_C1_ledger_failure_cycle (env : PollEnv)
    (h : env.ledgerFetch = none) :
    (fetchAndUpdateData env).blockchainFetchAttempted = false
    ∧ (fetchAndUpdateData env).blockchainTableUpdated = false
    ∧ (fetchAndUpdateData env).errorBannerShown = true := by
  simp [fetchAndUpdateData, h]

theorem claim_C1_ledger_failure_cycle_witness :
    (PollEnv.ledgerFetch
        { ledgerFetch := none, blockchainFetch := some [],
          trainingStatusFetch := none } = none)
    ∧ (fetchAndUpdateData
        { ledgerFetch := none, blockchainFetch := some [],
          trainingStatusFetch := none }).errorBannerShown = true :=
  ⟨rfl, (claim_C1_ledger_failure_cycle
    { ledgerFetch := none, blockchainFetch := some [],
      trainingStatusFetch := none } rfl).2.2⟩

/-- C5: with positive `total_rounds` the rendered percentage equals
`round(100 · current_round / total_rounds)` clamped to `[0, 100]`;
with `total_rounds` absent or zero the rendered text is `0%`; and
`current_round = 3, total_rounds = 10` renders as `30%`. -/
theorem claim_C5_progress :
    (∀ (st : FlowerStatus) (tr : Nat), st.total_rounds = some tr → 0 < tr →
        (trainingProgress st : ℤ)
          = min 100 (max 0 (round ((100 * st.current_round : ℚ) / tr))))
    ∧ (∀ st : FlowerStatus, st.total_rounds = none ∨ st.total_rounds = some 0 →
        trainingProgressText st = "0%")
    ∧ trainingProgressText
        { connected := true, server_running := true, training_in_progress := true,
          flower_accessible := true, clients_connected := 2, current_round := 3,
          total_rounds := some 10 } = "30%" := by
  refine ⟨?_, ?_, ?_⟩
  · intro st tr htr hpos
    have hr := jsRound100_eq_round st.current_round tr hpos
    have hnonneg : 0 ≤ round ((100 * st.current_round : ℚ) / tr) := by
      rw [← hr]; exact Int.natCast_nonneg _
    rw [max_eq_right hnonneg, ← hr]
    simp only [trainingProgress, htr, if_pos hpos]
    push_cast
    rfl
  · intro st h
    rcases h with h | h <;>
      simp [trainingProgressText, trainingProgress, h] <;> rfl
  · rfl

theorem claim_C5_progress_witness :
    (FlowerStatus.total_rounds
        { connected := true, server_running := true, training_in_progress := true,
          flower_accessible := true, clients_connected := 2, current_round := 3,
          total_rounds := some 10 } = some 10)
    ∧ (trainingProgress
        { connected := true, server_running := true, training_in_progress := true,
          flower_accessible := true, clients_connected := 2, current_round := 3,
          total_rounds := some 10 } : ℤ)
        = min 100 (max 0 (round ((100 * (3 : Nat) : ℚ) / (10 : Nat)))) :=
  ⟨rfl, claim_C5_progress.1
    { connected := true, server_running := true, training_in_progress := true,
      flower_accessible := true, clients_connected := 2, current_round := 3,
      total_rounds := some 10 } 10 rfl (by decide)⟩

/-- C6: the connection-status label follows the strict first-match
priority chain `connected` → `server_running` → `training_in_progress`
→ disconnected; once an earlier flag matches, the later flags are
ignored. -/
theorem claim_C6_status_priority (st : FlowerStatus) :
    (st.connected = true →
        statusLabel st = "Connected (" ++ toString st.clients_connected
          ++ " client" ++ (if st.clients_connected ≠ 1 then "s" else "") ++ ")")
    ∧ (st.connected = false → st.server_running = true →
        statusLabel st = "Server running but not accessible")
    ∧ (st.connected = false → st.server_running = false →
        st.training_in_progress = true → statusLabel st = "Starting up...")
    ∧ (st.connected = false → st.server_running = false →
        st.training_in_progress = false → statusLabel st = "Disconnected") := by
  refine ⟨fun h1 => ?_, fun h1 h2 => ?_, fun h1 h2 h3 => ?_, fun h1 h2 h3 => ?_⟩ <;>
    simp [statusLabel, h1, *]

theorem claim_C6_status_priority_witness :
    (FlowerStatus.connected
        { connected := false, server_running := true, training_in_progress := true,
          flower_accessible := false, clients_connected := 5, current_round := 0,
          total_rounds := none } = false)
    ∧ statusLabel
        { connected := false, server_running := true, training_in_progress := true,
          flower_accessible := false, clients_connected := 5, current_round := 0,
          total_rounds := none } = "Server running but not accessible" :=
  ⟨rfl, (claim_C6_status_priority
    { connected := false, server_running := true, training_in_progress := true,
      flower_accessible := false, clients_connected := 5, current_round := 0,
      total_rounds := none }).2.1 rfl rfl⟩

/-- Ledger entry of round 1 at time 10:00 (as minutes-of-day 600). -/
def entryR1 : LedgerEntry :=
  { round_num := 1, timestamp := 600, clients := [], accuracy := none, loss := none }

/-- Ledger entry of round 2 at time 10:05. -/
def entryR2 : LedgerEntry :=
  { round_num := 2, timestamp := 605, clients := [], accuracy := none, loss := none }

/-- Ledger entry of round 3 at time 10:02. -/
def entryR3 : LedgerEntry :=
  { round_num := 3, timestamp := 602, clients := [], accuracy := none, loss := none }

/-- C7: both tables render their rows sorted by timestamp descending
(each adjacent pair non-increasing, over a permutation of the input,
whatever order the source returned); the spec's example with timestamps
10:00 / 10:05 / 10:02 renders as rounds 2, 3, 1. -/
theorem claim_C7_tables_sorted_desc :
    (∀ l : List LedgerEntry, l ≠ [] →
        List.Pairwise (fun a b => b.timestamp ≤ a.timestamp) (sortedLedgerRows l)
        ∧ (sortedLedgerRows l).Perm l)
    ∧ (∀ l : List AuditBlock, l ≠ [] →
        List.Pairwise (fun a b => b.timestamp ≤ a.timestamp) (sortedBlockRows l)
        ∧ (sortedBlockRows l).Perm l)
    ∧ sortedLedgerRows [entryR1, entryR2, entryR3] = [entryR2, entryR3, entryR1] := by
  refine ⟨fun l _ => ⟨?_, ?_⟩, fun l _ => ⟨?_, ?_⟩, ?_⟩
  · exact pairwise_sortByTsDesc LedgerEntry.timestamp l
  · exact perm_sortByTsDesc LedgerEntry.timestamp l
  · exact pairwise_sortByTsDesc AuditBlock.timestamp l
  · exact perm_sortByTsDesc AuditBlock.timestamp l
  · simp [sortedLedgerRows, sortByTsDesc, List.mergeSort, List.merge,
      entryR1, entryR2, entryR3]

theorem claim_C7_tables_sorted_desc_witness :
    ([entryR1, entryR2] ≠ [])
    ∧ (List.Pairwise (fun a b => b.timestamp ≤ a.timestamp)
          (sortedLedgerRows [entryR1, entryR2])
        ∧ (sortedLedgerRows [entryR1, entryR2]).Perm [entryR1, entryR2]) :=
  ⟨by simp, claim_C7_tables_sorted_desc.1 [entryR1, entryR2] (by simp)⟩

/-- C8: the "previous hash" column renders the literal label `Genesis`
— not the raw sentinel — for a block whose previous hash is the
64-zero-character sentinel, and a truncated 16-character-plus-ellipsis
form for any other non-empty previous hash. -/
theorem claim_C8_genesis_cell (b : AuditBlock) :
    (b.previous_hash = genesisSentinel → prevHashCell b.previous_hash = "Genesis")
    ∧ (b.previous_hash ≠ "" → b.previous_hash ≠ genesisSentinel →
        prevHashCell b.previous_hash = b.previous_hash.take 16 ++ "...") := by
  constructor
  · intro h
    rw [h]
    rfl
  · intro h1 h2
    simp [prevHashCell, h1, h2]

theorem claim_C8_genesis_cell_witness :
    (exampleBlock.previous_hash = genesisSentinel)
    ∧ prevHashCell exampleBlock.previous_hash = "Genesis" :=
  ⟨rfl, (claim_C8_genesis_cell exampleBlock).1 rfl⟩

end Dashboard
